import Mathlib

/-!
Verification of the SolarSim gravity-and-integration core.

The definitions below are a shallow embedding of
`src/solarsim/models/celestial_body.py`, `src/solarsim/simulation/simulator.py`
and `src/solarsim/config/constants.py`.  Python floats are modelled as real
numbers; the mutation of a `CelestialBody` object is modelled by explicit
state passing (a function returns the updated body).  The identity test
`self is body` in `update_position` is modelled by the caller removing the
updated body's own index from the list it passes (every list entry is a
distinct object in the source).
-/

namespace SolarSim

/-- Constant `AU` from `src/solarsim/config/constants.py`. -/
noncomputable def AU : ℝ := 149.6e6 * 1000

/-- Gravitational constant `G` from `src/solarsim/config/constants.py`. -/
noncomputable def G : ℝ := 6.67428e-11

/-- Constant `TIMESTEP` from `src/solarsim/config/constants.py` (one day in seconds). -/
noncomputable def TIMESTEP : ℝ := 3600 * 24

/-- The fixed primary mass `1.98892e30` hard-coded in
`CelestialBody._calculate_orbital_properties`. -/
noncomputable def SUN_MASS : ℝ := 1.98892e30

/-- State of a `CelestialBody` (all mutable attributes set by `__init__`). -/
structure Body where
  x : ℝ
  y : ℝ
  radius : ℝ
  color : ℕ × ℕ × ℕ
  mass : ℝ
  name : String
  is_sun : Bool
  x_vel : ℝ
  y_vel : ℝ
  orbit : List (ℝ × ℝ)
  distance_to_sun : ℝ
  orbital_period : ℝ
  semi_major_axis : ℝ
  velocity : ℝ

/-- Constructor `CelestialBody.__init__`: the non-argument attributes start at `[]` / `0`. -/
def initBody (x y radius : ℝ) (color : ℕ × ℕ × ℕ) (mass : ℝ) (name : String)
    ( is_sun : Bool) (x_vel y_vel : ℝ) : Body :=
  { x := x, y := y, radius := radius, color := color, mass := mass,
    name := name, is_sun := is_sun, x_vel := x_vel, y_vel := y_vel,
    orbit := [], distance_to_sun := 0, orbital_period := 0,
    semi_major_axis := 0, velocity := 0 }

/-- Python's `math.atan2(y, x)`: the argument of the complex number `x + y·i`
(both have range `(-π, π]`, value `0` at the origin, and satisfy
`cos θ = x/r`, `sin θ = y/r`). -/
noncomputable def atan2 (y x : ℝ) : ℝ := Complex.arg ⟨x, y⟩

/-- The Euclidean distance computed at the top of
`CelestialBody.calculate_attraction`. -/
noncomputable def body_distance (self other : Body) : ℝ :=
  Real.sqrt ((other.x - self.x) ^ 2 + (other.y - self.y) ^ 2)

/-- Method `CelestialBody._calculate_orbital_properties`. -/
noncomputable def calculate_orbital_properties (self : Body) : Body :=
  let velocity := Real.sqrt (self.x_vel ^ 2 + self.y_vel ^ 2)
  let semi_major_axis := self.distance_to_sun / AU
  let orbital_period :=
    if semi_major_axis > 0 then
      2 * Real.pi * Real.sqrt (self.distance_to_sun ^ 3 / (G * SUN_MASS)) /
        (24 * 3600)
    else self.orbital_period
  { self with
    velocity := velocity
    semi_major_axis := semi_major_axis
    orbital_period := orbital_period }

/-- The side effect of `CelestialBody.calculate_attraction` on `self`
(lines 102-108): when `other` is the sun, refresh `distance_to_sun` and,
unless `self` is the sun, recompute the orbital properties. -/
noncomputable def attract_state (self other : Body) : Body :=
  if other.is_sun then
    let s := { self with distance_to_sun := body_distance self other }
    if self.is_sun then s else calculate_orbital_properties s
  else self

/-- The return value of `CelestialBody.calculate_attraction`
(lines 110-122): zero force at coincident positions, otherwise
`F = G·m·m'/d²` decomposed along `atan2(dy, dx)`.  It reads only `x`, `y`
and `mass`, none of which the side effect changes, so it is computed from
the original `self`. -/
noncomputable def attract_force (self other : Body) : ℝ × ℝ :=
  if body_distance self other = 0 then (0, 0)
  else
    let force := G * self.mass * other.mass / body_distance self other ^ 2
    let theta := atan2 (other.y - self.y) (other.x - self.x)
    (Real.cos theta * force, Real.sin theta * force)

/-- Method `CelestialBody.calculate_attraction`: the updated `self` (the side
effect fires before the coincident-position early return) together with
the returned force components. -/
noncomputable def calculate_attraction (self other : Body) : Body × (ℝ × ℝ) :=
  (attract_state self other, attract_force self other)

/-- The force-accumulation loop of `CelestialBody.update_position`:
fold `calculate_attraction` over the other bodies, threading the mutated
`self` and summing the force components. -/
noncomputable def accumulate_forces (p : Body × ℝ × ℝ) (others : List Body) :
    Body × ℝ × ℝ :=
  others.foldl
    (fun acc body =>
      let r := calculate_attraction acc.1 body
      (r.1, acc.2.1 + r.2.1, acc.2.2 + r.2.2))
    p

/-- Method `CelestialBody.update_position`.  `others` is the list of bodies the
loop actually processes: all bodies except `self` itself (the `self is
body` identity check), in order. -/
noncomputable def update_position (self : Body) (others : List Body) : Body :=
  if self.is_sun then self
  else
    let acc := accumulate_forces (self, 0, 0) others
    let s := acc.1
    let x_vel := s.x_vel + acc.2.1 / s.mass * TIMESTEP
    let y_vel := s.y_vel + acc.2.2 / s.mass * TIMESTEP
    let x := s.x + x_vel * TIMESTEP
    let y := s.y + y_vel * TIMESTEP
    let orbit1 := s.orbit ++ [(x, y)]
    let orbit2 :=
      if orbit1.length > 1000 then orbit1.drop (orbit1.length - 1000)
      else orbit1
    { s with
      x := x
      y := y
      x_vel := x_vel
      y_vel := y_vel
      orbit := orbit2 }

/-- One body's turn inside `Simulator.update`'s inner loop:
`body.update_position(self.bodies)` for the body at index `i` of the
current list, with every other body (the current, partially updated list
minus the body itself). -/
noncomputable def stepAt (bodies : List Body) (i : ℕ) : List Body :=
  match bodies[i]? with
  | none => bodies
  | some b => bodies.set i (update_position b (bodies.eraseIdx i))

/-- One full pass of `for body in self.bodies: body.update_position(...)`:
bodies are updated sequentially, in list order, each seeing the already
updated state of earlier bodies. -/
noncomputable def step (bodies : List Body) : List Body :=
  (List.range bodies.length).foldl stepAt bodies

/-- Method `Simulator.update`: skip when paused or the speed multiplier is zero,
otherwise run the step loop `update_count` times where `update_count` is
`int(time_multiplier)` when the multiplier exceeds 1 and `1` otherwise. -/
noncomputable def simUpdate (paused : Bool) (time_multiplier : ℝ)
    (bodies : List Body) : List Body :=
  if paused then bodies
  else if time_multiplier = 0 then bodies
  else
    let update_count : ℕ :=
      if time_multiplier > 1 then (⌊time_multiplier⌋).toNat else 1
    (List.range update_count).foldl (fun bs _ => step bs) bodies

/-- The factory `create_celestial_body`: forwards to the constructor with
`x_vel = 0` (its default). -/
def create_celestial_body (name : String) (x y radius : ℝ)
    (color : ℕ × ℕ × ℕ) (mass : ℝ) ( is_sun : Bool) (y_vel : ℝ) : Body :=
  initBody x y radius color mass name is_sun 0 y_vel

/-- Method `Simulator.add_body`: build the body via the factory and append it to
`self.bodies`. -/
def add_body (bodies : List Body) (name : String) (x y radius : ℝ)
    (color : ℕ × ℕ × ℕ) (mass : ℝ) ( is_sun : Bool) (y_vel : ℝ) :
    List Body :=
  bodies ++ [create_celestial_body name x y radius color mass is_sun y_vel]

/-- Performing `n` sequential invocations of the step loop. -/
noncomputable def stepN : ℕ → List Body → List Body
  | 0, bodies => bodies
  | n + 1, bodies => step (stepN n bodies)

/-- A body undergoing a sequence of `update_position` calls, one per entry
of `l` (each entry is the list of other bodies seen by that call). -/
noncomputable def iterate_updates (b : Body) : List (List Body) → Body
  | [] => b
  | os :: rest => iterate_updates (update_position b os) rest

/-- The full append history of the orbit trail along a sequence of
`update_position` calls: each call on a non-sun body appends the new
position, a call on the sun appends nothing. -/
noncomputable def posHistory (b : Body) : List (List Body) → List (ℝ × ℝ)
  | [] => []
  | os :: rest =>
    (if b.is_sun then [] else
      [((update_position b os).x, (update_position b os).y)]) ++
      posHistory (update_position b os) rest

/-! ### Helper lemmas -/

theorem G_pos : 0 < G := by unfold G; norm_num

theorem attract_state_x (s o : Body) : (attract_state s o).x = s.x := by
  unfold attract_state calculate_orbital_properties
  split_ifs <;> rfl

theorem attract_state_y (s o : Body) : (attract_state s o).y = s.y := by
  unfold attract_state calculate_orbital_properties
  split_ifs <;> rfl

theorem attract_state_mass (s o : Body) : (attract_state s o).mass = s.mass := by
  unfold attract_state calculate_orbital_properties
  split_ifs <;> rfl

theorem attract_state_x_vel (s o : Body) :
    (attract_state s o).x_vel = s.x_vel := by
  unfold attract_state calculate_orbital_properties
  split_ifs <;> rfl

theorem attract_state_y_vel (s o : Body) :
    (attract_state s o).y_vel = s.y_vel := by
  unfold attract_state calculate_orbital_properties
  split_ifs <;> rfl

theorem attract_state_is_sun (s o : Body) :
    (attract_state s o).is_sun = s.is_sun := by
  unfold attract_state calculate_orbital_properties
  split_ifs <;> rfl

theorem attract_state_orbit (s o : Body) :
    (attract_state s o).orbit = s.orbit := by
  unfold attract_state calculate_orbital_properties
  split_ifs <;> rfl

theorem attract_force_congr (s t o : Body) (hx : s.x = t.x) (hy : s.y = t.y)
    (hm : s.mass = t.mass) : attract_force s o = attract_force t o := by
  unfold attract_force body_distance
  rw [hx, hy, hm]

theorem foldl_attract_state_x (os : List Body) (s : Body) :
    (os.foldl attract_state s).x = s.x := by
  induction os generalizing s with
  | nil => rfl
  | cons o os ih => rw [List.foldl_cons, ih, attract_state_x]

theorem foldl_attract_state_y (os : List Body) (s : Body) :
    (os.foldl attract_state s).y = s.y := by
  induction os generalizing s with
  | nil => rfl
  | cons o os ih => rw [List.foldl_cons, ih, attract_state_y]

theorem foldl_attract_state_mass (os : List Body) (s : Body) :
    (os.foldl attract_state s).mass = s.mass := by
  induction os generalizing s with
  | nil => rfl
  | cons o os ih => rw [List.foldl_cons, ih, attract_state_mass]

theorem foldl_attract_state_x_vel (os : List Body) (s : Body) :
    (os.foldl attract_state s).x_vel = s.x_vel := by
  induction os generalizing s with
  | nil => rfl
  | cons o os ih => rw [List.foldl_cons, ih, attract_state_x_vel]

theorem foldl_attract_state_y_vel (os : List Body) (s : Body) :
    (os.foldl attract_state s).y_vel = s.y_vel := by
  induction os generalizing s with
  | nil => rfl
  | cons o os ih => rw [List.foldl_cons, ih, attract_state_y_vel]

theorem foldl_attract_state_is_sun (os : List Body) (s : Body) :
    (os.foldl attract_state s).is_sun = s.is_sun := by
  induction os generalizing s with
  | nil => rfl
  | cons o os ih => rw [List.foldl_cons, ih, attract_state_is_sun]

theorem foldl_attract_state_orbit (os : List Body) (s : Body) :
    (os.foldl attract_state s).orbit = s.orbit := by
  induction os generalizing s with
  | nil => rfl
  | cons o os ih => rw [List.foldl_cons, ih, attract_state_orbit]

theorem accumulate_forces_fst (os : List Body) (s : Body) (fx fy : ℝ) :
    (accumulate_forces (s, fx, fy) os).1 = os.foldl attract_state s := by
  induction os generalizing s fx fy with
  | nil => rfl
  | cons o os ih =>
    rw [List.foldl_cons]
    exact ih (attract_state s o) _ _

theorem accumulate_forces_snd (os : List Body) (s : Body) (fx fy : ℝ) :
    (accumulate_forces (s, fx, fy) os).2.1 =
      fx + (os.map fun o => (attract_force s o).1).sum ∧
    (accumulate_forces (s, fx, fy) os).2.2 =
      fy + (os.map fun o => (attract_force s o).2).sum := by
  induction os generalizing s fx fy with
  | nil => simp [accumulate_forces]
  | cons o os ih =>
    have hmap1 : (os.map fun o' => (attract_force (attract_state s o) o').1) =
        os.map fun o' => (attract_force s o').1 := by
      refine List.map_congr_left fun o' _ => ?_
      rw [attract_force_congr (attract_state s o) s o' (attract_state_x s o)
        (attract_state_y s o) (attract_state_mass s o)]
    have hmap2 : (os.map fun o' => (attract_force (attract_state s o) o').2) =
        os.map fun o' => (attract_force s o').2 := by
      refine List.map_congr_left fun o' _ => ?_
      rw [attract_force_congr (attract_state s o) s o' (attract_state_x s o)
        (attract_state_y s o) (attract_state_mass s o)]
    have h := ih (attract_state s o) (fx + (attract_force s o).1)
      (fy + (attract_force s o).2)
    rw [hmap1, hmap2] at h
    constructor
    · rw [show accumulate_forces (s, fx, fy) (o :: os) =
          accumulate_forces (attract_state s o, fx + (attract_force s o).1,
            fy + (attract_force s o).2) os from rfl, h.1]
      simp [add_assoc]
    · rw [show accumulate_forces (s, fx, fy) (o :: os) =
          accumulate_forces (attract_state s o, fx + (attract_force s o).1,
            fy + (attract_force s o).2) os from rfl, h.2]
      simp [add_assoc]

/-- Full characterization of `update_position` on a non-sun body: the
velocity is updated first from the summed pure forces, and the position
update then uses the already-updated velocity. -/
theorem update_position_kinematics (b : Body) (others : List Body)
    (hb : b.is_sun = false) :
    (update_position b others).x_vel =
      b.x_vel + (others.map fun o => (attract_force b o).1).sum / b.mass *
        TIMESTEP ∧
    (update_position b others).y_vel =
      b.y_vel + (others.map fun o => (attract_force b o).2).sum / b.mass *
        TIMESTEP ∧
    (update_position b others).x =
      b.x + (update_position b others).x_vel * TIMESTEP ∧
    (update_position b others).y =
      b.y + (update_position b others).y_vel * TIMESTEP := by
  unfold update_position
  rw [hb]
  simp only [Bool.false_eq_true, if_false]
  rw [accumulate_forces_fst, (accumulate_forces_snd others b 0 0).1,
    (accumulate_forces_snd others b 0 0).2]
  simp only [foldl_attract_state_x, foldl_attract_state_y,
    foldl_attract_state_x_vel, foldl_attract_state_y_vel,
    foldl_attract_state_mass, zero_add]
  exact ⟨trivial, trivial, trivial, trivial⟩

/-- The derived-quantity fields of `update_position` are those of the
force-loop state (the final assignment only touches position, velocity
components and the orbit trail). -/
theorem update_position_derived (b : Body) (others : List Body)
    (hb : b.is_sun = false) :
    (update_position b others).velocity =
      (others.foldl attract_state b).velocity ∧
    (update_position b others).distance_to_sun =
      (others.foldl attract_state b).distance_to_sun ∧
    (update_position b others).semi_major_axis =
      (others.foldl attract_state b).semi_major_axis ∧
    (update_position b others).orbital_period =
      (others.foldl attract_state b).orbital_period := by
  unfold update_position
  rw [hb]
  simp only [Bool.false_eq_true, if_false]
  rw [accumulate_forces_fst]
  exact ⟨rfl, rfl, rfl, rfl⟩

/-- The orbit trail after `update_position` on a non-sun body: the new
position is appended and the result truncated to the most recent 1000. -/
theorem update_position_orbit (b : Body) (others : List Body)
    (hb : b.is_sun = false) :
    (update_position b others).orbit.length = min (b.orbit.length + 1) 1000 ∧
    List.IsSuffix (update_position b others).orbit
      (b.orbit ++
        [((update_position b others).x, (update_position b others).y)]) := by
  unfold update_position
  rw [hb]
  simp only [Bool.false_eq_true, if_false]
  rw [accumulate_forces_fst]
  simp only [foldl_attract_state_orbit]
  set p : ℝ × ℝ := (_, _) with hp
  by_cases hlen : (b.orbit ++ [p]).length > 1000
  · rw [if_pos hlen]
    constructor
    · rw [List.length_drop]
      simp only [List.length_append, List.length_cons, List.length_nil] at *
      omega
    · exact List.drop_suffix _ _
  · rw [if_neg hlen]
    constructor
    · simp only [List.length_append, List.length_cons, List.length_nil] at *
      omega
    · exact List.suffix_refl _

/-- Calling `update_position` leaves the sun untouched (the early return). -/
theorem update_position_sun (b : Body) (others : List Body)
    (hb : b.is_sun = true) : update_position b others = b := by
  unfold update_position
  rw [hb]
  simp

/-- C4: coincident positions give the zero force vector. -/
theorem calculate_attraction_coincident (self other : Body)
    (hd : body_distance self other = 0) :
    (calculate_attraction self other).2 = (0, 0) := by
  simp [calculate_attraction, attract_force, hd]

/-- Witness for C4: two bodies sitting at the origin. -/
noncomputable def wSun : Body := initBody 0 0 30 (255, 255, 0) 1 "sun" true 0 0

noncomputable def wPlanet : Body :=
  initBody 1 0 16 (100, 149, 237) 1 "planet" false 0 0

noncomputable def wCoincident : Body :=
  initBody 0 0 16 (0, 0, 255) 1 "ghost" false 0 0

theorem wCoincident_distance : body_distance wCoincident wSun = 0 := by
  simp [body_distance, wCoincident, wSun, initBody]

theorem calculate_attraction_coincident_witness :
    body_distance wCoincident wSun = 0 ∧
    (calculate_attraction wCoincident wSun).2 = (0, 0) :=
  ⟨wCoincident_distance,
    calculate_attraction_coincident wCoincident wSun wCoincident_distance⟩

/-- C10: at a coincident primary the refresh still fires before the
zero-force early return: the distance and the semi-major-axis estimate
drop to `0`, and the orbital-period estimate keeps its previous value
because the `semi_major_axis > 0` guard fails. -/
theorem coincident_primary_refresh (self other : Body)
    (h1 : self.is_sun = false) (h2 : other.is_sun = true)
    (hd : body_distance self other = 0) :
    (calculate_attraction self other).1.distance_to_sun = 0 ∧
    (calculate_attraction self other).1.semi_major_axis = 0 ∧
    (calculate_attraction self other).1.orbital_period =
      self.orbital_period ∧
    (calculate_attraction self other).2 = (0, 0) := by
  refine ⟨?_, ?_, ?_, by simp [calculate_attraction, attract_force, hd]⟩ <;>
    simp [calculate_attraction, attract_state, calculate_orbital_properties,
      h1, h2, hd]

theorem coincident_primary_refresh_witness :
    wCoincident.is_sun = false ∧ wSun.is_sun = true ∧
    body_distance wCoincident wSun = 0 ∧
    ((calculate_attraction wCoincident wSun).1.distance_to_sun = 0 ∧
     (calculate_attraction wCoincident wSun).1.semi_major_axis = 0 ∧
     (calculate_attraction wCoincident wSun).1.orbital_period =
       wCoincident.orbital_period ∧
     (calculate_attraction wCoincident wSun).2 = (0, 0)) :=
  ⟨rfl, rfl, wCoincident_distance,
    coincident_primary_refresh wCoincident wSun rfl rfl wCoincident_distance⟩

/-- C2: for a non-sun body, `update_position` first updates the velocity
from the summed force over all other bodies with the fixed timestep
`dt = 86400 s`, and then updates the position using the already-updated
velocity. -/
theorem update_position_semi_implicit_euler (b : Body) (others : List Body)
    (hb : b.is_sun = false) :
    (update_position b others).x_vel =
      b.x_vel + (others.map fun o => (attract_force b o).1).sum / b.mass *
        TIMESTEP ∧
    (update_position b others).y_vel =
      b.y_vel + (others.map fun o => (attract_force b o).2).sum / b.mass *
        TIMESTEP ∧
    (update_position b others).x =
      b.x + (update_position b others).x_vel * TIMESTEP ∧
    (update_position b others).y =
      b.y + (update_position b others).y_vel * TIMESTEP ∧
    TIMESTEP = 86400 := by
  have h := update_position_kinematics b others hb
  refine ⟨h.1, h.2.1, h.2.2.1, h.2.2.2, ?_⟩
  unfold TIMESTEP
  norm_num

theorem update_position_semi_implicit_euler_witness :
    wPlanet.is_sun = false ∧
    ((update_position wPlanet [wSun]).x_vel =
      wPlanet.x_vel +
        (([wSun].map fun o => (attract_force wPlanet o).1).sum /
          wPlanet.mass) * TIMESTEP ∧
    (update_position wPlanet [wSun]).y_vel =
      wPlanet.y_vel +
        (([wSun].map fun o => (attract_force wPlanet o).2).sum /
          wPlanet.mass) * TIMESTEP ∧
    (update_position wPlanet [wSun]).x =
      wPlanet.x + (update_position wPlanet [wSun]).x_vel * TIMESTEP ∧
    (update_position wPlanet [wSun]).y =
      wPlanet.y + (update_position wPlanet [wSun]).y_vel * TIMESTEP ∧
    TIMESTEP = 86400) :=
  ⟨rfl, update_position_semi_implicit_euler wPlanet [wSun] rfl⟩

/-- Entry `i` survives a `stepAt j` pass unchanged when it is the sun. -/
theorem stepAt_preserves_sun (bodies : List Body) (j i : ℕ) (b : Body)
    (hi : bodies[i]? = some b) (hb : b.is_sun = true) :
    (stepAt bodies j)[i]? = some b := by
  unfold stepAt
  cases hj : bodies[j]? with
  | none => exact hi
  | some c =>
    by_cases hij : j = i
    · subst hij
      rw [hj] at hi
      cases hi
      dsimp only
      rw [update_position_sun b _ hb]
      have hlt : j < bodies.length := by
        by_contra hge
        rw [List.getElem?_eq_none (by omega)] at hj
        cases hj
      rw [List.getElem?_set_self hlt]
    · rw [List.getElem?_set_ne (fun h => hij h)]
      exact hi

/-- The sun's entry is unchanged by a full pass of the step loop. -/
theorem step_preserves_sun (bodies : List Body) (i : ℕ) (b : Body)
    (hi : bodies[i]? = some b) (hb : b.is_sun = true) :
    (step bodies)[i]? = some b := by
  unfold step
  generalize List.range bodies.length = js
  induction js generalizing bodies with
  | nil => exact hi
  | cons j js ih =>
    rw [List.foldl_cons]
    exact ih (stepAt bodies j) (stepAt_preserves_sun bodies j i b hi hb)

/-- C5: the integrator never mutates the primary: `update_position` is the
identity on the sun, and a full system step leaves the sun's entry (hence
its position, velocity and orbit trail) unchanged. -/
theorem primary_never_mutated (b : Body) (others bodies : List Body) (i : ℕ)
    (hb : b.is_sun = true) (hi : bodies[i]? = some b) :
    update_position b others = b ∧ (step bodies)[i]? = some b :=
  ⟨update_position_sun b others hb, step_preserves_sun bodies i b hi hb⟩

theorem primary_never_mutated_witness :
    wSun.is_sun = true ∧ [wSun, wPlanet][0]? = some wSun ∧
    (update_position wSun [wPlanet] = wSun ∧
     (step [wSun, wPlanet])[0]? = some wSun) :=
  ⟨rfl, rfl, primary_never_mutated wSun [wPlanet] [wSun, wPlanet] 0 rfl rfl⟩

/-- C8 (amended): the constructor and `add_body` perform no mass
validation: any mass, zero or negative included, is accepted and the body
is appended to the system with exactly that mass. -/
theorem add_body_accepts_nonpositive_mass (bodies : List Body)
    (name : String) (x y radius : ℝ) (color : ℕ × ℕ × ℕ) (mass : ℝ)
    (flag : Bool) (y_vel : ℝ) (_hm : mass ≤ 0) :
    add_body bodies name x y radius color mass flag y_vel =
      bodies ++ [create_celestial_body name x y radius color mass flag
        y_vel] ∧
    (create_celestial_body name x y radius color mass flag y_vel).mass =
      mass :=
  ⟨rfl, rfl⟩

theorem add_body_accepts_nonpositive_mass_witness :
    (-1 : ℝ) ≤ 0 ∧
    (add_body [] "X" 1 2 3 (0, 0, 0) (-1) false 0 =
      [] ++ [create_celestial_body "X" 1 2 3 (0, 0, 0) (-1) false 0] ∧
    (create_celestial_body "X" 1 2 3 (0, 0, 0) (-1) false 0).mass = -1) :=
  ⟨by norm_num,
    add_body_accepts_nonpositive_mass [] "X" 1 2 3 (0, 0, 0) (-1) false 0
      (by norm_num)⟩

/-- C8 counterexample: constructing and adding a body with mass `-1`
is not rejected — the body lands in the system with its non-positive
mass. -/
theorem add_body_negative_mass_counterexample :
    (add_body [] "X" 1 2 3 (0, 0, 0) (-1) false 0).map Body.mass =
      [-1] := rfl

/-- One `update_position` call never grows a trail of length ≤ 1000 past
1000. -/
theorem update_position_orbit_le (b : Body) (others : List Body)
    (h : b.orbit.length ≤ 1000) :
    (update_position b others).orbit.length ≤ 1000 := by
  cases hb : b.is_sun with
  | true => rw [update_position_sun b others hb]; exact h
  | false => rw [(update_position_orbit b others hb).1]; omega

/-- One `update_position` call leaves the trail a suffix of the old trail
plus the (possibly empty) newly appended position. -/
theorem update_position_orbit_suffix (b : Body) (others : List Body) :
    List.IsSuffix (update_position b others).orbit
      (b.orbit ++
        (if b.is_sun then [] else
          [((update_position b others).x, (update_position b others).y)])) := by
  cases hb : b.is_sun with
  | true =>
    rw [update_position_sun b others hb, if_pos rfl, List.append_nil]
  | false =>
    rw [if_neg (by simp [hb])]
    exact (update_position_orbit b others hb).2

theorem iterate_updates_orbit_le (l : List (List Body)) (b : Body)
    (h : b.orbit.length ≤ 1000) :
    (iterate_updates b l).orbit.length ≤ 1000 := by
  induction l generalizing b with
  | nil => exact h
  | cons os rest ih =>
    exact ih (update_position b os) (update_position_orbit_le b os h)

theorem isSuffix_append_right {α : Type} {s t : List α} (u : List α)
    (h : List.IsSuffix s t) : List.IsSuffix (s ++ u) (t ++ u) := by
  obtain ⟨c, hc⟩ := h
  exact ⟨c, by rw [← hc, List.append_assoc]⟩

theorem iterate_updates_orbit_suffix (l : List (List Body)) (b : Body) :
    List.IsSuffix (iterate_updates b l).orbit (b.orbit ++ posHistory b l) := by
  induction l generalizing b with
  | nil => exact ⟨[], by simp [iterate_updates, posHistory]⟩
  | cons os rest ih =>
    have h1 := ih (update_position b os)
    have h2 := isSuffix_append_right (posHistory (update_position b os) rest)
      (update_position_orbit_suffix b os)
    rw [List.append_assoc] at h2
    exact List.IsSuffix.trans h1 h2

/-- C3: the orbit trail never exceeds 1000 entries over any number of
`update_position` calls; along the way the trail is always an in-order
suffix of the full append history (FIFO eviction), and each single call on
a non-sun body appends exactly the new position, trimming to the newest
1000. -/
theorem orbit_trail_bounded_fifo (b : Body) (l : List (List Body))
    (others : List Body) (h1000 : b.orbit.length ≤ 1000)
    (hb : b.is_sun = false) :
    (iterate_updates b l).orbit.length ≤ 1000 ∧
    List.IsSuffix (iterate_updates b l).orbit (b.orbit ++ posHistory b l) ∧
    (update_position b others).orbit.length =
      min (b.orbit.length + 1) 1000 ∧
    List.IsSuffix (update_position b others).orbit
      (b.orbit ++
        [((update_position b others).x, (update_position b others).y)]) :=
  ⟨iterate_updates_orbit_le l b h1000, iterate_updates_orbit_suffix l b,
    (update_position_orbit b others hb).1,
    (update_position_orbit b others hb).2⟩

theorem orbit_trail_bounded_fifo_witness :
    wPlanet.orbit.length ≤ 1000 ∧ wPlanet.is_sun = false ∧
    ((iterate_updates wPlanet [[wSun]]).orbit.length ≤ 1000 ∧
     List.IsSuffix (iterate_updates wPlanet [[wSun]]).orbit
       (wPlanet.orbit ++ posHistory wPlanet [[wSun]]) ∧
     (update_position wPlanet [wSun]).orbit.length =
       min (wPlanet.orbit.length + 1) 1000 ∧
     List.IsSuffix (update_position wPlanet [wSun]).orbit
       (wPlanet.orbit ++
         [((update_position wPlanet [wSun]).x,
           (update_position wPlanet [wSun]).y)])) :=
  ⟨by simp [wPlanet, initBody], rfl,
    orbit_trail_bounded_fifo wPlanet [[wSun]] [wSun]
      (by simp [wPlanet, initBody]) rfl⟩

theorem foldl_step_range (n : ℕ) (bodies : List Body) :
    (List.range n).foldl (fun bs _ => step bs) bodies = stepN n bodies := by
  induction n with
  | zero => rfl
  | succ n ih =>
    rw [List.range_succ, List.foldl_append, ih]
    rfl

/-- C7: one `Simulator.update` with an integral speed multiplier `n ≥ 1`
(neither paused nor zero) equals `n` sequential invocations of the step
loop. -/
theorem simUpdate_eq_stepN (n : ℕ) (bodies : List Body) (hn : 1 ≤ n) :
    simUpdate false (n : ℝ) bodies = stepN n bodies := by
  unfold simUpdate
  rw [if_neg (by simp)]
  rw [if_neg (by exact_mod_cast Nat.one_le_iff_ne_zero.mp hn)]
  by_cases h1 : (n : ℝ) > 1
  · rw [if_pos h1, Int.floor_natCast, Int.toNat_natCast, foldl_step_range]
  · have hn1 : n = 1 := by
      have : (n : ℝ) ≤ 1 := not_lt.mp h1
      have : n ≤ 1 := by exact_mod_cast this
      omega
    subst hn1
    rw [if_neg h1, foldl_step_range]

theorem simUpdate_eq_stepN_witness :
    1 ≤ 2 ∧ simUpdate false ((2 : ℕ) : ℝ) [wSun, wPlanet] =
      stepN 2 [wSun, wPlanet] :=
  ⟨by norm_num, simUpdate_eq_stepN 2 [wSun, wPlanet] (by norm_num)⟩

theorem cos_atan2 (y x : ℝ) (h : Real.sqrt (x ^ 2 + y ^ 2) ≠ 0) :
    Real.cos (atan2 y x) = x / Real.sqrt (x ^ 2 + y ^ 2) := by
  have hz : (⟨x, y⟩ : ℂ) ≠ 0 := by
    intro h0
    apply h
    have hx : x = 0 := congrArg Complex.re h0
    have hy : y = 0 := congrArg Complex.im h0
    rw [hx, hy]
    simp
  rw [atan2, Complex.cos_arg hz]
  congr 1
  rw [Complex.abs_apply, Complex.normSq_mk]
  congr 1
  ring

theorem sin_atan2 (y x : ℝ) :
    Real.sin (atan2 y x) = y / Real.sqrt (x ^ 2 + y ^ 2) := by
  rw [atan2, Complex.sin_arg]
  congr 1
  rw [Complex.abs_apply, Complex.normSq_mk]
  congr 1
  ring

/-- C1: away from coincidence the returned force is
`(cos θ · F, sin θ · F)` with `θ = atan2(dy, dx)` and `F = G·m·m'/d²`,
and its Euclidean magnitude is exactly `F`. -/
theorem calculate_attraction_force_law (self other : Body)
    (hd : 0 < body_distance self other)
    (hm1 : 0 < self.mass) (hm2 : 0 < other.mass) :
    (calculate_attraction self other).2 =
      (Real.cos (atan2 (other.y - self.y) (other.x - self.x)) *
         (G * self.mass * other.mass / body_distance self other ^ 2),
       Real.sin (atan2 (other.y - self.y) (other.x - self.x)) *
         (G * self.mass * other.mass / body_distance self other ^ 2)) ∧
    Real.sqrt ((calculate_attraction self other).2.1 ^ 2 +
        (calculate_attraction self other).2.2 ^ 2) =
      G * self.mass * other.mass / body_distance self other ^ 2 := by
  have hne : body_distance self other ≠ 0 := ne_of_gt hd
  have hvec : (calculate_attraction self other).2 =
      (Real.cos (atan2 (other.y - self.y) (other.x - self.x)) *
         (G * self.mass * other.mass / body_distance self other ^ 2),
       Real.sin (atan2 (other.y - self.y) (other.x - self.x)) *
         (G * self.mass * other.mass / body_distance self other ^ 2)) := by
    simp [calculate_attraction, attract_force, hne]
  refine ⟨hvec, ?_⟩
  rw [hvec]
  set F := G * self.mass * other.mass / body_distance self other ^ 2 with hF
  set t := atan2 (other.y - self.y) (other.x - self.x) with ht
  have hFpos : 0 ≤ F := by
    rw [hF]
    have := G_pos
    positivity
  have hsq : (Real.cos t * F) ^ 2 + (Real.sin t * F) ^ 2 = F ^ 2 := by
    have h1 := Real.sin_sq_add_cos_sq t
    nlinarith [h1]
  rw [hsq, Real.sqrt_sq hFpos]

noncomputable def wPlanetB : Body :=
  initBody 3 4 12 (188, 39, 50) 2 "other" false 0 0

theorem wPlanet_wPlanetB_distance : 0 < body_distance wPlanet wPlanetB := by
  rw [body_distance]
  apply Real.sqrt_pos.mpr
  simp [wPlanet, wPlanetB, initBody]
  norm_num

theorem calculate_attraction_force_law_witness :
    0 < body_distance wPlanet wPlanetB ∧ 0 < wPlanet.mass ∧
    0 < wPlanetB.mass ∧
    ((calculate_attraction wPlanet wPlanetB).2 =
      (Real.cos (atan2 (wPlanetB.y - wPlanet.y) (wPlanetB.x - wPlanet.x)) *
         (G * wPlanet.mass * wPlanetB.mass /
           body_distance wPlanet wPlanetB ^ 2),
       Real.sin (atan2 (wPlanetB.y - wPlanet.y) (wPlanetB.x - wPlanet.x)) *
         (G * wPlanet.mass * wPlanetB.mass /
           body_distance wPlanet wPlanetB ^ 2)) ∧
     Real.sqrt ((calculate_attraction wPlanet wPlanetB).2.1 ^ 2 +
         (calculate_attraction wPlanet wPlanetB).2.2 ^ 2) =
       G * wPlanet.mass * wPlanetB.mass /
         body_distance wPlanet wPlanetB ^ 2) :=
  ⟨wPlanet_wPlanetB_distance, by norm_num [wPlanet, initBody],
    by norm_num [wPlanetB, initBody],
    calculate_attraction_force_law wPlanet wPlanetB
      wPlanet_wPlanetB_distance (by norm_num [wPlanet, initBody])
      (by norm_num [wPlanetB, initBody])⟩

theorem body_distance_comm (a b : Body) :
    body_distance b a = body_distance a b := by
  unfold body_distance
  congr 1
  ring

/-- C9: the two independently computed force vectors are exact negations
of each other (in exact real arithmetic). -/
theorem attraction_antiparallel (a b : Body)
    (hd : 0 < body_distance a b) :
    (calculate_attraction a b).2.1 = -(calculate_attraction b a).2.1 ∧
    (calculate_attraction a b).2.2 = -(calculate_attraction b a).2.2 := by
  have hne : body_distance a b ≠ 0 := ne_of_gt hd
  have hne' : body_distance b a ≠ 0 := by
    rw [body_distance_comm]; exact hne
  have hs : Real.sqrt ((b.x - a.x) ^ 2 + (b.y - a.y) ^ 2) ≠ 0 := hne
  have hs' : Real.sqrt ((a.x - b.x) ^ 2 + (a.y - b.y) ^ 2) ≠ 0 := hne'
  have hdist : Real.sqrt ((a.x - b.x) ^ 2 + (a.y - b.y) ^ 2) =
      Real.sqrt ((b.x - a.x) ^ 2 + (b.y - a.y) ^ 2) := by
    congr 1
    ring
  have hab : (calculate_attraction a b).2 =
      (Real.cos (atan2 (b.y - a.y) (b.x - a.x)) *
         (G * a.mass * b.mass / body_distance a b ^ 2),
       Real.sin (atan2 (b.y - a.y) (b.x - a.x)) *
         (G * a.mass * b.mass / body_distance a b ^ 2)) := by
    simp [calculate_attraction, attract_force, hne]
  have hba : (calculate_attraction b a).2 =
      (Real.cos (atan2 (a.y - b.y) (a.x - b.x)) *
         (G * b.mass * a.mass / body_distance b a ^ 2),
       Real.sin (atan2 (a.y - b.y) (a.x - b.x)) *
         (G * b.mass * a.mass / body_distance b a ^ 2)) := by
    simp [calculate_attraction, attract_force, hne']
  have hbd : body_distance a b =
      Real.sqrt ((b.x - a.x) ^ 2 + (b.y - a.y) ^ 2) := rfl
  have hbd' : body_distance b a =
      Real.sqrt ((b.x - a.x) ^ 2 + (b.y - a.y) ^ 2) := by
    rw [body_distance_comm a b]
    exact hbd
  rw [hab, hba]
  dsimp only
  constructor
  · rw [cos_atan2 _ _ hs, cos_atan2 _ _ hs', hdist, hbd, hbd']
    ring
  · rw [sin_atan2, sin_atan2, hdist, hbd, hbd']
    ring

theorem attraction_antiparallel_witness :
    0 < body_distance wPlanet wPlanetB ∧
    ((calculate_attraction wPlanet wPlanetB).2.1 =
      -(calculate_attraction wPlanetB wPlanet).2.1 ∧
     (calculate_attraction wPlanet wPlanetB).2.2 =
      -(calculate_attraction wPlanetB wPlanet).2.2) :=
  ⟨wPlanet_wPlanetB_distance,
    attraction_antiparallel wPlanet wPlanetB wPlanet_wPlanetB_distance⟩

theorem attract_state_not_sun (s o : Body) (ho : o.is_sun = false) :
    attract_state s o = s := by
  unfold attract_state
  rw [ho]
  simp

theorem foldl_attract_state_no_sun (os : List Body) (s : Body)
    (h : ∀ o ∈ os, o.is_sun = false) : os.foldl attract_state s = s := by
  induction os generalizing s with
  | nil => rfl
  | cons o os ih =>
    rw [List.foldl_cons, attract_state_not_sun s o (h o (by simp))]
    exact ih s fun o' ho' => h o' (by simp [ho'])

theorem attract_state_sun (p s : Body) (hp : p.is_sun = false)
    (hs : s.is_sun = true) :
    (attract_state p s).velocity = Real.sqrt (p.x_vel ^ 2 + p.y_vel ^ 2) ∧
    (attract_state p s).distance_to_sun = body_distance p s ∧
    (attract_state p s).semi_major_axis = body_distance p s / AU := by
  unfold attract_state
  rw [hs, hp]
  simp [calculate_orbital_properties]

/-- C6 (amended): after `update_position` the derived quantities are those
recomputed during the force loop from the body's pre-update state: speed
from the pre-update velocity components, distance from the pre-update
position to the sun's position, and the semi-major-axis estimate from that
distance — not from the post-step state. -/
theorem derived_quantities_from_pre_step_state (b s : Body)
    (l1 l2 : List Body) (hb : b.is_sun = false) (hs : s.is_sun = true)
    (hl2 : ∀ o ∈ l2, o.is_sun = false) :
    (update_position b (l1 ++ s :: l2)).velocity =
      Real.sqrt (b.x_vel ^ 2 + b.y_vel ^ 2) ∧
    (update_position b (l1 ++ s :: l2)).distance_to_sun =
      body_distance b s ∧
    (update_position b (l1 ++ s :: l2)).semi_major_axis =
      body_distance b s / AU := by
  have hd := update_position_derived b (l1 ++ s :: l2) hb
  have hfold : (l1 ++ s :: l2).foldl attract_state b =
      attract_state (l1.foldl attract_state b) s := by
    rw [List.foldl_append, List.foldl_cons]
    exact foldl_attract_state_no_sun l2 _ hl2
  have hmsun : (l1.foldl attract_state b).is_sun = false := by
    rw [foldl_attract_state_is_sun]
    exact hb
  have hstate := attract_state_sun (l1.foldl attract_state b) s hmsun hs
  have hbd : body_distance (l1.foldl attract_state b) s =
      body_distance b s := by
    unfold body_distance
    rw [foldl_attract_state_x, foldl_attract_state_y]
  refine ⟨?_, ?_, ?_⟩
  · rw [hd.1, hfold, hstate.1, foldl_attract_state_x_vel,
      foldl_attract_state_y_vel]
  · rw [hd.2.1, hfold, hstate.2.1, hbd]
  · rw [hd.2.2.1, hfold, hstate.2.2, hbd]

theorem derived_quantities_from_pre_step_state_witness :
    wPlanet.is_sun = false ∧ wSun.is_sun = true ∧
    ((update_position wPlanet ([] ++ wSun :: [])).velocity =
      Real.sqrt (wPlanet.x_vel ^ 2 + wPlanet.y_vel ^ 2) ∧
     (update_position wPlanet ([] ++ wSun :: [])).distance_to_sun =
      body_distance wPlanet wSun ∧
     (update_position wPlanet ([] ++ wSun :: [])).semi_major_axis =
      body_distance wPlanet wSun / AU) :=
  ⟨rfl, rfl,
    derived_quantities_from_pre_step_state wPlanet wSun [] [] rfl rfl
      (by simp)⟩

/-- C6 counterexample: sun of mass 1 at the origin, planet of mass 1 at
`(1, 0)` at rest.  After one `update_position` the stored `velocity`
(speed) is the pre-update speed 0, but the magnitude of the post-update
velocity vector is `G·86400 > 0`: the derived quantity is not consistent
with the post-step state. -/
theorem derived_speed_stale_counterexample :
    ¬((update_position wPlanet [wSun]).velocity =
      Real.sqrt ((update_position wPlanet [wSun]).x_vel ^ 2 +
        (update_position wPlanet [wSun]).y_vel ^ 2)) := by
  have hd1 : body_distance wPlanet wSun = 1 := by
    rw [body_distance]
    norm_num [wPlanet, wSun, initBody]
  have hne : body_distance wPlanet wSun ≠ 0 := by
    rw [hd1]
    norm_num
  have hsq : Real.sqrt (((-1 : ℝ)) ^ 2 + (0 : ℝ) ^ 2) = 1 := by
    norm_num
  have hcos : Real.cos (atan2 (0 : ℝ) (-1)) = -1 := by
    rw [cos_atan2 (0 : ℝ) (-1) (by rw [hsq]; norm_num), hsq]
    norm_num
  have hsin : Real.sin (atan2 (0 : ℝ) (-1)) = 0 := by
    rw [sin_atan2 (0 : ℝ) (-1)]
    norm_num
  have hfx : (attract_force wPlanet wSun).1 = -G := by
    simp only [attract_force, if_neg hne]
    rw [hd1]
    norm_num [wSun, wPlanet, initBody, hcos]
  have hfy : (attract_force wPlanet wSun).2 = 0 := by
    simp only [attract_force, if_neg hne]
    rw [hd1]
    norm_num [wSun, wPlanet, initBody, hsin]
  have hk := update_position_kinematics wPlanet [wSun] rfl
  have hxv : (update_position wPlanet [wSun]).x_vel = -G * TIMESTEP := by
    rw [hk.1]
    simp only [List.map_cons, List.map_nil, List.sum_cons, List.sum_nil,
      add_zero, hfx]
    norm_num [wPlanet, initBody]
  have hyv : (update_position wPlanet [wSun]).y_vel = 0 := by
    rw [hk.2.1]
    simp only [List.map_cons, List.map_nil, List.sum_cons, List.sum_nil,
      add_zero, hfy]
    norm_num [wPlanet, initBody]
  have hvel : (update_position wPlanet [wSun]).velocity = 0 := by
    rw [(update_position_derived wPlanet [wSun] rfl).1, List.foldl_cons,
      List.foldl_nil, (attract_state_sun wPlanet wSun rfl rfl).1]
    norm_num [wPlanet, initBody]
  intro h
  rw [hvel, hxv, hyv] at h
  have hGT : (0 : ℝ) < G * TIMESTEP :=
    mul_pos G_pos (by rw [TIMESTEP]; norm_num)
  have hpos : (0 : ℝ) < Real.sqrt ((-G * TIMESTEP) ^ 2 + (0 : ℝ) ^ 2) := by
    apply Real.sqrt_pos.mpr
    nlinarith [hGT]
  rw [← h] at hpos
  exact lt_irrefl 0 hpos

end SolarSim
